import Mathlib

/-!
Verification of the conversation-orchestration layer of the ai-agent-experience
repository (src/api/app): thread storage backends, the OpenAPI spec cache,
the plugin manager, the MCP plugin, the function-invocation filter, and the
chat turn of ChatService. Each definition is a shallow embedding of the
corresponding Python source; external effects (HTTP fetches, model streaming,
plugin subprocesses) are supplied as explicit oracle values.
-/

set_option autoImplicit false

namespace AgentExperience

/-! ### Association-list helpers

Python dicts are modelled as association lists with last-write-wins insert.
-/

def lookupA {α : Type} (l : List (String × α)) (k : String) : Option α :=
  (l.find? (fun p => p.1 == k)).map (fun p => p.2)

def insertA {α : Type} (l : List (String × α)) (k : String) (v : α) : List (String × α) :=
  (k, v) :: l.filter (fun p => !(p.1 == k))

def eraseA {α : Type} (l : List (String × α)) (k : String) : List (String × α) :=
  l.filter (fun p => !(p.1 == k))

/-! ### Thread storage model (app/services/thread_storage.py)

ThreadValue models the Python objects that reach ThreadStorage.save:
a ChatHistoryAgentThread (a fully picklable in-process history), an
AzureAIAgentThread (a remote-backed thread whose id may be None), and the
SerializableThread wrapper written by the save paths (thread_storage.py
lines 12-29). PickledBlob models base64(pickle.dumps(x)): pickle round-trips
by construction, which is the only property of pickle the source relies on.
-/

inductive ThreadValue : Type
  | chatHistory (history : String)
  | azureAI (threadId : Option String)
  | serHandle (threadType : String) (threadId : String) (meta : List (String × String))
  deriving DecidableEq, Repr

inductive PickledBlob : Type
  | pickled (t : ThreadValue)
  deriving DecidableEq, Repr

def pickleDumps (t : ThreadValue) : PickledBlob :=
  .pickled t

def pickleLoads (b : PickledBlob) : ThreadValue :=
  match b with
  | .pickled t => t

/-- A value returned by a load: either a live thread object or, when the
stored cell was a base64 string and use_serialization is off, the raw
string itself (the in-memory backend then returns the blob unchanged). -/
abbrev LoadedVal := ThreadValue ⊕ PickledBlob

/-- A cell of the in-memory store: either the object stored directly
(use_serialization = False) or the base64-encoded pickle (True). -/
abbrev StoredCell := ThreadValue ⊕ PickledBlob

abbrev Store := List (String × StoredCell)

/-- InMemoryThreadStorage.save (thread_storage.py lines 64-97): an
AzureAIAgentThread with an id is replaced by a SerializableThread wrapper;
one without an id is not saved at all; other threads are stored directly
or pickled according to use_serialization. -/
def inMemorySave (useSer : Bool) (store : Store) (sid : String) (t : ThreadValue) : Store :=
  match t with
  | .azureAI (some tid) =>
      let ser : ThreadValue := .serHandle "AzureAIAgentThread" tid []
      let cell : StoredCell := if useSer then .inr (pickleDumps ser) else .inl ser
      insertA store sid cell
  | .azureAI none => store
  | _ =>
      let cell : StoredCell := if useSer then .inr (pickleDumps t) else .inl t
      insertA store sid cell

/-- InMemoryThreadStorage.load (lines 99-117): with use_serialization the
stored string is base64-decoded and unpickled (a non-string cell makes the
decode raise, caught, returning None); without it the cell is returned
as stored. -/
def inMemoryLoad (useSer : Bool) (store : Store) (sid : String) : Option LoadedVal :=
  match lookupA store sid with
  | none => none
  | some cell =>
      if useSer then
        match cell with
        | .inr b => some (.inl (pickleLoads b))
        | .inl _ => none
      else
        some cell

/-- InMemoryThreadStorage.delete (lines 119-123). -/
def inMemoryDelete (store : Store) (sid : String) : Store :=
  eraseA store sid

/-- An entry of the Redis model: key "thread:" ++ sid maps to the encoded
blob together with its expiry (client.set(key, value, ex=ttl)). -/
abbrev RedisStore := List (String × (PickledBlob × Nat))

/-- RedisThreadStorage.save (lines 141-175): AzureAIAgentThread with an id
is wrapped in a SerializableThread; without an id nothing is written;
otherwise the thread itself is pickled. -/
def redisSave (ttl : Nat) (store : RedisStore) (sid : String) (t : ThreadValue) : RedisStore :=
  match t with
  | .azureAI (some tid) =>
      insertA store ("thread:" ++ sid) (pickleDumps (.serHandle "AzureAIAgentThread" tid []), ttl)
  | .azureAI none => store
  | _ => insertA store ("thread:" ++ sid) (pickleDumps t, ttl)

/-- RedisThreadStorage.load (lines 177-193). -/
def redisLoad (store : RedisStore) (sid : String) : Option LoadedVal :=
  match lookupA store ("thread:" ++ sid) with
  | none => none
  | some (b, _) => some (.inl (pickleLoads b))

/-- The operation surface a ThreadStorage backend actually implements.
deleteOp is an Option because RedisThreadStorage (lines 126-193) defines
save and load but no delete, although ThreadStorage declares delete as an
abstract method (lines 47-50). -/
structure BackendOps (σ : Type) where
  saveOp : σ → String → ThreadValue → σ
  loadOp : σ → String → Option LoadedVal
  deleteOp : Option (σ → String → σ)

def inMemoryOps (useSer : Bool) : BackendOps Store :=
  { saveOp := inMemorySave useSer
    loadOp := inMemoryLoad useSer
    deleteOp := some inMemoryDelete }

def redisOps (ttl : Nat) : BackendOps RedisStore :=
  { saveOp := redisSave ttl
    loadOp := redisLoad
    deleteOp := none }

/-! ### OpenAPI spec cache model (app/services/openapi_spec_cache.py)

A parsed spec is a JSON/YAML document modelled as a dict; Python truthiness
of a dict is non-emptiness. A fetch outcome is the result of
_fetch_openapi_spec: a typed exception, or a parsed document, or None
(yaml.safe_load of an empty body). Background task creation is recorded in
the scheduled field rather than executed.
-/

abbrev Spec := List (String × String)

abbrev AuthList := List (String × String)

structure CacheState : Type where
  specCache : List (String × Spec)
  timestamps : List (String × ℚ)
  authMap : List (String × AuthList)
  deriving DecidableEq, Repr

def isTruthySpec : Option Spec → Bool
  | none => false
  | some d => !d.isEmpty

/-- OpenAPISpecCache._fetch_and_cache_spec (lines 223-243): on a fetch
exception, log and return None; on a truthy spec, replace the cache entry,
timestamp and auth record; on a falsy result, store nothing. The result is
an Except to show the except-block leaves no exception escaping. -/
def fetchAndCacheSpec (st : CacheState) (url : String) (auth : AuthList) (now : ℚ)
    (fetch : Except String (Option Spec)) : Except String (Option Spec × CacheState) :=
  match fetch with
  | .error _ => .ok (none, st)
  | .ok (some d) =>
      if d.isEmpty then .ok (some d, st)
      else
        .ok (some d,
          { specCache := insertA st.specCache url d
            timestamps := insertA st.timestamps url now
            authMap := insertA st.authMap url auth })
  | .ok none => .ok (none, st)

structure GetOutcome : Type where
  result : Except String (Option Spec)
  state : CacheState
  scheduled : List String
  deriving Repr

/-- OpenAPISpecCache.get_spec (lines 157-221). Cache disabled: fetch
directly, degrading any exception to None. Cached: return the entry
immediately and, when now - fetched_at > 0.75 * ttl, record exactly one
background refresh task for the URL (created, not awaited). Uncached:
fetch and cache synchronously; the outer except falls back to one direct
fetch and then None. -/
def getSpec (enableCache : Bool) (ttl now : ℚ) (st : CacheState) (url : String)
    (auth : AuthList) (fetch : Except String (Option Spec)) : GetOutcome :=
  if !enableCache then
    match fetch with
    | .ok v => { result := .ok v, state := st, scheduled := [] }
    | .error _ => { result := .ok none, state := st, scheduled := [] }
  else
    match lookupA st.specCache url with
    | some cached =>
        let lastFetch := (lookupA st.timestamps url).getD 0
        let sched := if now - lastFetch > ttl * (3 / 4) then [url] else []
        { result := .ok (some cached), state := st, scheduled := sched }
    | none =>
        match fetchAndCacheSpec st url auth now fetch with
        | .ok (v, st1) => { result := .ok v, state := st1, scheduled := [] }
        | .error _ =>
            match fetch with
            | .ok v => { result := .ok v, state := st, scheduled := [] }
            | .error _ => { result := .ok none, state := st, scheduled := [] }

/-! ### Plugin manager model (app/plugins/plugin_manager.py)

A declared tool is reduced to what _create_plugin_from_tool inspects: its
type string, which definition attributes it carries, and oracle outcomes
for plugin.initialize and plugin.close. Successful creations are tracked
under the key f-string ptype_id(plugin); id(plugin) is modelled by a
counter that is fresh per construction.
-/

inductive InitOutcome : Type
  | success
  | returnedFalse
  | raised (msg : String)
  deriving DecidableEq, Repr

structure PTool : Type where
  type_ : String
  hasMcpDef : Bool
  hasOpenApiDef : Bool
  hasAgentDef : Bool
  hasAzureDef : Bool
  initOutcome : InitOutcome
  closeRaises : Bool
  deriving DecidableEq, Repr

/-- The dispatch of _create_plugin_from_tool (lines 118-157): lower-cased
type string plus the hasattr check selects the registry key, anything else
is logged and dropped. -/
def dispatchKey (t : PTool) : Option String :=
  let ty := t.type_.toLower
  if ty == "modelcontextprotocol" && t.hasMcpDef then some "mcp"
  else if ty == "openapi" && t.hasOpenApiDef then some "openapi"
  else if ty == "agent" && t.hasAgentDef then some "agent"
  else if ty == "azureai" && t.hasAzureDef then some "azure"
  else none

/-- The registry populated by _register_plugin_types (lines 53-70): only
"mcp" and "openapi" are registered; the "agent" and "azure" registrations
are commented out in the source. -/
def registryKeys : List String :=
  ["mcp", "openapi"]

structure PluginInst : Type where
  ptype : String
  uid : Nat
  closeRaises : Bool
  deriving DecidableEq, Repr

/-- create_plugin (lines 72-99) composed with _create_plugin_from_tool: an
unknown type returns None; initialize returning False closes the fresh
instance and returns None; initialize raising is caught and returns None;
only a successful initialize is tracked. -/
def pluginFromTool (t : PTool) (uid : Nat) : Option PluginInst :=
  match dispatchKey t with
  | none => none
  | some k =>
      if registryKeys.contains k then
        match t.initOutcome with
        | .success => some { ptype := k, uid := uid, closeRaises := t.closeRaises }
        | .returnedFalse => none
        | .raised _ => none
      else none

/-- create_plugins_from_agent_config (lines 101-116): each tool either
contributes one live plugin to created_plugins or is skipped. -/
def runCreatePlugins : List PTool → Nat → List PluginInst
  | [], _ => []
  | t :: ts, uid =>
      match pluginFromTool t uid with
      | some p => p :: runCreatePlugins ts (uid + 1)
      | none => runCreatePlugins ts (uid + 1)

/-- The manager's self.plugins dict after resolution: each tracked instance
keyed by ptype_uid (create_plugin line 92). -/
def trackedPlugins (tools : List PTool) (uid : Nat) : List (String × PluginInst) :=
  (runCreatePlugins tools uid).map (fun p => (p.ptype ++ "_" ++ toString p.uid, p))

/-- close_all (lines 159-178): one close coroutine per tracked instance,
all awaited by asyncio.gather(..., return_exceptions=True) so a raising
close (recorded as its Bool outcome) does not stop the others, then the
dict is cleared. The first component lists every executed cleanup with its
outcome; the second is the tracked dict afterwards. -/
def closeAll (tracked : List (String × PluginInst)) (closeFails : Nat → Bool) :
    List (Nat × Bool) × List (String × PluginInst) :=
  (tracked.map (fun kv => (kv.2.uid, closeFails kv.2.uid)), [])

/-- A tool resolves to a live plugin exactly when its dispatch key is
registered and its initialize succeeds; everything else is a recoverable
failure (logged, skipped). -/
def toolResolves (t : PTool) : Bool :=
  match dispatchKey t with
  | some k =>
      registryKeys.contains k &&
        (match t.initOutcome with
         | .success => true
         | _ => false)
  | none => false

/-! ### MCP plugin model (app/plugins/mcp_plugin.py)

MCPPlugin.initialize (lines 36-109). The configuration value found under
mcpServers may be a mapping (entry list, in insertion order) or some other
Python value, of which only truthiness matters for the checks performed.
The connect oracle says whether MCPStdioPlugin.connect succeeds.
-/

structure ServerConfig : Type where
  command : Option String
  args : List String
  description : Option String
  deriving DecidableEq, Repr

inductive ServersVal : Type
  | dict (entries : List (String × ServerConfig))
  | nonDict (truthy : Bool)
  deriving DecidableEq, Repr

structure MCPConfig : Type where
  mcpServers : Option ServersVal
  deriving DecidableEq, Repr

inductive MCPInitConfig : Type
  | strConf (parsed : Option MCPConfig)
  | objConf (c : MCPConfig)
  deriving DecidableEq, Repr

/-- Python truthiness of server_config.get("command"): None and the empty
string are falsy. -/
def commandTruthy : Option String → Bool
  | none => false
  | some s => !s.isEmpty

/-- MCPPlugin.initialize: a string config that fails json.loads returns
False; a missing mcpServers key returns False; a falsy or non-dict value
returns False; otherwise only next(iter(...)) — the first entry — is
considered: no command means False, else exactly one connect attempt is
made whose outcome is the return value. The second component records the
server names for which a connect was attempted. -/
def mcpInit (cfg : MCPInitConfig) (connectOk : Bool) : Bool × List String :=
  match cfg with
  | .strConf none => (false, [])
  | .strConf (some c) => mcpInitBody c connectOk
  | .objConf c => mcpInitBody c connectOk
where
  mcpInitBody (c : MCPConfig) (connectOk : Bool) : Bool × List String :=
    match c.mcpServers with
    | none => (false, [])
    | some (.nonDict _) => (false, [])
    | some (.dict []) => (false, [])
    | some (.dict ((name, sc) :: _)) =>
        if commandTruthy sc.command then (connectOk, [name]) else (false, [])

/-! ### Function-invocation filter model (app/services/kernel_factory.py)

function_invocation_filter (lines 44-78) records dict events into the
session's deque. EventVal covers the value types that occur in those
dicts, plus a dict case used only to state the specification's claimed
shape of a sanitized-arguments record.
-/

structure InvocationContext : Type where
  functionName : String
  arguments : List (String × String)
  deriving DecidableEq, Repr

inductive EventVal : Type
  | s (v : String)
  | num (t : ℚ)
  | dict (kvs : List (String × String))
  deriving DecidableEq, Repr

abbrev Event := List (String × EventVal)

/-- The function_start record appended at lines 56-61: exactly the keys
type, function and timestamp; the context's arguments are not consulted. -/
def startEventOf (ctx : InvocationContext) (t : ℚ) : Event :=
  [("type", .s "function_start"),
   ("function", .s ctx.functionName),
   ("timestamp", .num t)]

/-- The function_end record appended at lines 70-75. -/
def endEventOf (ctx : InvocationContext) (t : ℚ) : Event :=
  [("type", .s "function_end"),
   ("function", .s ctx.functionName),
   ("timestamp", .num t)]

/-- The queue delta of one filtered invocation: events are appended only
when a session id is present and registered in function_call_queues. -/
def filterQueueDelta (sessionId : Option String) (activeSessions : List String)
    (ctx : InvocationContext) (tStart tEnd : ℚ) : List Event :=
  match sessionId with
  | none => []
  | some sid =>
      if sid.isEmpty then []
      else if activeSessions.contains sid then
        [startEventOf ctx tStart, endEventOf ctx tEnd]
      else []

def denyList : List String :=
  ["key", "password", "secret", "token", "authorization"]

/-- ASCII lower-casing of one character, used by the deny-list match. -/
def lowerChar (c : Char) : Char :=
  if 'A' ≤ c ∧ c ≤ 'Z' then Char.ofNat (c.toNat + 32) else c

def startsWithL : List Char → List Char → Bool
  | _, [] => true
  | [], _ :: _ => false
  | c :: cs, d :: ds => c == d && startsWithL cs ds

def containsL : List Char → List Char → Bool
  | [], needle => needle.isEmpty
  | c :: cs, needle => startsWithL (c :: cs) needle || containsL cs needle

/-- Case-insensitive deny-list match on an argument name. -/
def isSensitiveName (name : String) : Bool :=
  denyList.any (fun d => containsL (name.toList.map lowerChar) d.toList)

/-- Modelled from the spec (section 4.4 and the argument-redaction
property): the shape the specification claims for a recorded FunctionStart
event — function name, owning plugin name, and a sanitized arguments
record in which a sensitive argument never carries its raw value. This
definition follows the specification's words and exists only to be
compared against startEventOf, which is translated from the source. -/
def claimedStartShape (ev : Event) (pluginName : String) (ctx : InvocationContext) : Prop :=
  lookupA ev "function" = some (.s ctx.functionName)
  ∧ lookupA ev "plugin" = some (.s pluginName)
  ∧ ∃ kvs, lookupA ev "arguments" = some (.dict kvs)
      ∧ ∀ kv ∈ ctx.arguments, isSensitiveName kv.1 = true → ¬ (kv.1, kv.2) ∈ kvs

/-! ### Chat turn model (app/services/chat_service.py, app/routes/chat.py)

ChatService.chat (lines 57-153). External awaits are oracle outcomes; the
generation stream is the list of responses produced before either normal
completion or a raise. Chunks distinguish normal content, the formatted
function-call notes emitted from the session queue, and the single
structured error dict yielded by the except block.
-/

inductive Chunk : Type
  | content (s : String)
  | funcNote (s : String)
  | errDict (msg : String)
  deriving DecidableEq, Repr

def isErrChunk : Chunk → Bool
  | .errDict _ => true
  | _ => false

structure StreamEvent : Type where
  funcChunks : List String
  content : String
  threadAfter : Option ThreadValue
  deriving DecidableEq, Repr

structure TurnOracle : Type where
  kernelResult : Except String Unit
  loadResult : Except String (Option LoadedVal)
  agentType : String
  agentCreateResult : Except String Unit
  streamEvents : List StreamEvent
  streamError : Option String
  finalFuncChunks : List String
  deriving Repr

/-- The error chunk yielded at chat_service.py line 134. -/
def errMsg (e : String) : String :=
  "Error when invoking stream: " ++ e

/-- The chunks emitted by the response loop (lines 101-113): per response,
first the drained function-call notes, then the response content. -/
def emitStream (evs : List StreamEvent) : List Chunk :=
  (evs.map (fun ev => ev.funcChunks.map Chunk.funcNote ++ [Chunk.content ev.content])).flatten

/-- Thread selection at lines 76-92: both agent constructors return a None
thread, which is replaced by the loaded thread only when the isinstance
check for the branch's live thread class succeeds. A SerializableThread
handle is neither an AzureAIAgentThread nor a ChatHistoryAgentThread, so
it fails both checks. -/
def selectThread (agentType : String) (existing : Option LoadedVal) : Option ThreadValue :=
  match existing with
  | some (.inl t) =>
      if agentType == "AzureAIAgent" then
        match t with
        | .azureAI _ => some t
        | _ => none
      else
        match t with
        | .chatHistory _ => some t
        | _ => none
  | _ => none

structure TurnResult : Type where
  chunks : List Chunk
  store : Store
  saveInvoked : Bool
  deriving Repr

/-- ChatService.chat with the default in-memory storage
(use_serialization = False, matching InMemoryThreadStorage()). Any raise
before the loop completes jumps to the except block, which yields the one
structured error chunk; thread_storage.save runs only after the stream and
the final function-call drain complete, and only for a non-None thread. -/
def chatTurn (o : TurnOracle) (sid : String) (store : Store) : TurnResult :=
  match o.kernelResult with
  | .error e => { chunks := [.errDict (errMsg e)], store := store, saveInvoked := false }
  | .ok _ =>
  match o.loadResult with
  | .error e => { chunks := [.errDict (errMsg e)], store := store, saveInvoked := false }
  | .ok existing =>
  if o.agentType == "AzureAIAgent" || o.agentType == "ChatCompletionAgent" then
    match o.agentCreateResult with
    | .error e => { chunks := [.errDict (errMsg e)], store := store, saveInvoked := false }
    | .ok _ =>
        let thread0 := selectThread o.agentType existing
        let emitted := emitStream o.streamEvents
        match o.streamError with
        | some e =>
            { chunks := emitted ++ [.errDict (errMsg e)], store := store, saveInvoked := false }
        | none =>
            let thread := o.streamEvents.foldl (fun _ ev => ev.threadAfter) thread0
            let chunks := emitted ++ o.finalFuncChunks.map Chunk.funcNote
            match thread with
            | none => { chunks := chunks, store := store, saveInvoked := false }
            | some t =>
                { chunks := chunks, store := inMemorySave false store sid t, saveInvoked := true }
  else
    { chunks := [.errDict (errMsg ("Unsupported agent type: " ++ o.agentType))],
      store := store, saveInvoked := false }

/-- A turn fails before persistence: kernel creation, thread load or agent
creation raised, the agent type is unsupported, or the generation stream
raised mid-stream. -/
def preSaveFailure (o : TurnOracle) : Prop :=
  (∃ e, o.kernelResult = .error e)
  ∨ (∃ e, o.loadResult = .error e)
  ∨ (o.agentType ≠ "AzureAIAgent" ∧ o.agentType ≠ "ChatCompletionAgent")
  ∨ (∃ e, o.agentCreateResult = .error e)
  ∨ (∃ e, o.streamError = some e)

/-! ### Witness fixtures -/

def wSpec : Spec :=
  [("openapi", "3.0.0")]

def wCache : CacheState :=
  { specCache := [("u", wSpec)], timestamps := [("u", 0)], authMap := [] }

def wEvA : StreamEvent :=
  { funcChunks := ["note1"], content := "hello", threadAfter := some (.chatHistory "h") }

def wTurnOk : TurnOracle :=
  { kernelResult := .ok (), loadResult := .ok none, agentType := "ChatCompletionAgent"
    agentCreateResult := .ok (), streamEvents := [wEvA], streamError := none
    finalFuncChunks := ["note2"] }

def wTurnStreamErr : TurnOracle :=
  { wTurnOk with streamError := some "boom" }

def wStore : Store :=
  [("other", .inl (.chatHistory "old"))]

def wCtx9 : InvocationContext :=
  { functionName := "call_api", arguments := [("api_key", "SECRET123")] }

/-- A fetch outcome counts as failed when it raises or yields no spec. -/
def fetchFails : Except String (Option Spec) → Bool
  | .ok (some _) => false
  | _ => true

/-! ### Helper lemmas -/

theorem length_filter_complement {α : Type} (l : List α) (p : α → Bool) :
    (l.filter p).length + (l.filter (fun a => !(p a))).length = l.length := by
  induction l with
  | nil => rfl
  | cons a t ih =>
      cases h : p a <;> simp [List.filter_cons, h] <;> omega

theorem pluginFromTool_isSome (t : PTool) (uid : Nat) :
    (pluginFromTool t uid).isSome = toolResolves t := by
  unfold pluginFromTool toolResolves
  cases hd : dispatchKey t with
  | none => rfl
  | some k =>
      dsimp only
      cases hk : registryKeys.contains k with
      | true => rw [if_pos rfl]; cases t.initOutcome <;> rfl
      | false => rw [if_neg Bool.false_ne_true, Bool.false_and]; rfl

theorem runCreatePlugins_length (tools : List PTool) (uid : Nat) :
    (runCreatePlugins tools uid).length = (tools.filter toolResolves).length := by
  induction tools generalizing uid with
  | nil => rfl
  | cons t ts ih =>
      have h := pluginFromTool_isSome t uid
      cases hp : pluginFromTool t uid with
      | some p =>
          have ht : toolResolves t = true := by rw [← h, hp]; rfl
          simp [runCreatePlugins, hp, List.filter_cons, ht, ih]
      | none =>
          have ht : toolResolves t = false := by rw [← h, hp]; rfl
          simp [runCreatePlugins, hp, List.filter_cons, ht, ih]

theorem emitStream_filter_err (evs : List StreamEvent) :
    (emitStream evs).filter isErrChunk = [] := by
  induction evs with
  | nil => rfl
  | cons ev t ih =>
      have h2 : (ev.funcChunks.map Chunk.funcNote).filter isErrChunk = [] := by
        induction ev.funcChunks with
        | nil => rfl
        | cons c cs ihc => simp [List.filter_cons, isErrChunk, ihc]
      have hstep : emitStream (ev :: t)
          = (ev.funcChunks.map Chunk.funcNote ++ [Chunk.content ev.content]) ++ emitStream t := by
        simp [emitStream]
      rw [hstep, List.filter_append, List.filter_append, h2, ih]
      simp [isErrChunk]

theorem fetchAndCacheSpec_ok (st : CacheState) (url : String) (auth : AuthList) (now : ℚ)
    (fetch : Except String (Option Spec)) :
    ∃ p, fetchAndCacheSpec st url auth now fetch = .ok p := by
  cases fetch with
  | error e => exact ⟨_, rfl⟩
  | ok v =>
      cases v with
      | none => exact ⟨_, rfl⟩
      | some d =>
          by_cases h : d.isEmpty = true
          · exact ⟨(some d, st), by simp [fetchAndCacheSpec, h]⟩
          · exact ⟨(some d,
              ⟨insertA st.specCache url d, insertA st.timestamps url now,
                insertA st.authMap url auth⟩),
              by simp [fetchAndCacheSpec, h]⟩

/-! ### Claim theorems -/

/-- Claim C1: the conversation state persisted under a session id is written only
after the generation stream for the turn completes: if the turn raises at
any point before completion (kernel creation, thread load, agent creation,
unsupported agent type, or mid-stream generation), thread_storage.save is
not invoked and the previously persisted store is unchanged. -/
theorem chat_save_skipped_on_failed_turn (o : TurnOracle) (sid : String) (store : Store)
    (h : preSaveFailure o) :
    (chatTurn o sid store).saveInvoked = false ∧ (chatTurn o sid store).store = store := by
  cases hk : o.kernelResult with
  | error e => simp [chatTurn, hk]
  | ok u =>
      cases hl : o.loadResult with
      | error e => simp [chatTurn, hk, hl]
      | ok ex =>
          by_cases hA : (o.agentType == "AzureAIAgent" || o.agentType == "ChatCompletionAgent") = true
          · cases hc : o.agentCreateResult with
            | error e => simp [chatTurn, hk, hl, hA, hc]
            | ok u2 =>
                cases hs : o.streamError with
                | some e => simp [chatTurn, hk, hl, hA, hc, hs]
                | none =>
                    exfalso
                    rcases h with ⟨e, he⟩ | ⟨e, he⟩ | ⟨h1, h2⟩ | ⟨e, he⟩ | ⟨e, he⟩
                    · rw [hk] at he; cases he
                    · rw [hl] at he; cases he
                    · simp only [Bool.or_eq_true, beq_iff_eq] at hA
                      rcases hA with hA | hA
                      · exact h1 hA
                      · exact h2 hA
                    · rw [hc] at he; cases he
                    · rw [hs] at he; cases he
          · simp [chatTurn, hk, hl, hA]

theorem chat_save_skipped_on_failed_turn_witness :
    preSaveFailure wTurnStreamErr
    ∧ (chatTurn wTurnStreamErr "s1" wStore).saveInvoked = false
    ∧ (chatTurn wTurnStreamErr "s1" wStore).store = wStore := by
  have hfail : preSaveFailure wTurnStreamErr :=
    Or.inr (Or.inr (Or.inr (Or.inr ⟨"boom", rfl⟩)))
  exact ⟨hfail, chat_save_skipped_on_failed_turn wTurnStreamErr "s1" wStore hfail⟩

/-- Claim C2: for an agent declaration with N declared tools of which K fail to
initialize recoverably, exactly N − K live plugins are resolved and
tracked, and close_all executes exactly N − K cleanups — one per tracked
instance, whatever each cleanup's own outcome — leaving the tracked set
empty. -/
theorem plugin_lifecycle_symmetry (tools : List PTool) (uid0 : Nat) (closeFails : Nat → Bool) :
    (runCreatePlugins tools uid0).length
        = tools.length - (tools.filter (fun t => !(toolResolves t))).length
    ∧ (closeAll (trackedPlugins tools uid0) closeFails).1.length
        = tools.length - (tools.filter (fun t => !(toolResolves t))).length
    ∧ (closeAll (trackedPlugins tools uid0) closeFails).2 = [] := by
  have h1 := runCreatePlugins_length tools uid0
  have h2 := length_filter_complement tools toolResolves
  have hmain : (runCreatePlugins tools uid0).length
      = tools.length - (tools.filter (fun t => !(toolResolves t))).length := by omega
  refine ⟨hmain, ?_, rfl⟩
  simpa [closeAll, trackedPlugins] using hmain

/-- Claim C3: a get on a cached URL returns the cached spec immediately and
leaves the state unchanged; when the entry's age exceeds 0.75 * ttl it
schedules exactly one background refresh task for that URL, and when the
entry is younger it schedules none. -/
theorem spec_cache_stale_read_refresh (ttl now : ℚ) (st : CacheState) (url : String)
    (auth : AuthList) (fetch : Except String (Option Spec)) (s : Spec)
    (hc : lookupA st.specCache url = some s) :
    (getSpec true ttl now st url auth fetch).result = .ok (some s)
    ∧ (getSpec true ttl now st url auth fetch).state = st
    ∧ (now - (lookupA st.timestamps url).getD 0 > ttl * (3 / 4) →
        (getSpec true ttl now st url auth fetch).scheduled = [url])
    ∧ (¬ (now - (lookupA st.timestamps url).getD 0 > ttl * (3 / 4)) →
        (getSpec true ttl now st url auth fetch).scheduled = []) := by
  have hbase : getSpec true ttl now st url auth fetch =
      { result := .ok (some s), state := st,
        scheduled :=
          if now - (lookupA st.timestamps url).getD 0 > ttl * (3 / 4) then [url] else [] } := by
    simp [getSpec, hc]
  refine ⟨by rw [hbase], by rw [hbase], ?_, ?_⟩
  · intro h; rw [hbase]; simp [h]
  · intro h; rw [hbase]; simp [h]

theorem spec_cache_stale_read_refresh_witness :
    lookupA wCache.specCache "u" = some wSpec
    ∧ (getSpec true 100 80 wCache "u" [] (.error "net")).result = .ok (some wSpec)
    ∧ (getSpec true 100 80 wCache "u" [] (.error "net")).scheduled = ["u"]
    ∧ (getSpec true 100 50 wCache "u" [] (.error "net")).scheduled = [] := by
  have h80 := spec_cache_stale_read_refresh 100 80 wCache "u" [] (.error "net") wSpec rfl
  have h50 := spec_cache_stale_read_refresh 100 50 wCache "u" [] (.error "net") wSpec rfl
  refine ⟨rfl, h80.1, h80.2.2.1 (by norm_num [lookupA, wCache]), h50.2.2.2 (by norm_num [lookupA, wCache])⟩

/-- Claim C4: a background refresh whose fetch fails (raises, or yields no spec)
leaves the whole cache state — entry, timestamp and auth record — for the
URL unchanged and returns None instead of raising, so a subsequent get for
that URL still returns the previously cached value. -/
theorem spec_cache_refresh_failure_preserves_entry
    (st : CacheState) (url : String) (auth auth2 : AuthList) (now now2 ttl : ℚ)
    (fetch fetch2 : Except String (Option Spec)) (hf : fetchFails fetch = true) :
    fetchAndCacheSpec st url auth now fetch = .ok (none, st)
    ∧ ∀ s, lookupA st.specCache url = some s →
        (getSpec true ttl now2 st url auth2 fetch2).result = .ok (some s) := by
  constructor
  · cases fetch with
    | error e => rfl
    | ok v =>
        cases v with
        | none => rfl
        | some d => simp [fetchFails] at hf
  · intro s hs
    simp [getSpec, hs]

theorem spec_cache_refresh_failure_preserves_entry_witness :
    fetchFails (Except.error "boom") = true
    ∧ fetchAndCacheSpec wCache "u" [] 200 (.error "boom") = .ok (none, wCache)
    ∧ (getSpec true 100 200 wCache "u" [] (.error "boom")).result = .ok (some wSpec) := by
  have h := spec_cache_refresh_failure_preserves_entry wCache "u" [] [] 200 200 100
    (.error "boom") (.error "boom") rfl
  exact ⟨rfl, h.1, h.2 wSpec rfl⟩

/-- Claim C5: get_spec never raises for any URL, auth input, cache state or fetch
outcome: every path produces an ok value (possibly None), never an
exception. -/
theorem spec_cache_get_never_raises (enableCache : Bool) (ttl now : ℚ) (st : CacheState)
    (url : String) (auth : AuthList) (fetch : Except String (Option Spec)) :
    ∃ v, (getSpec enableCache ttl now st url auth fetch).result = .ok v := by
  cases enableCache with
  | false =>
      cases fetch with
      | ok v => exact ⟨v, by simp [getSpec]⟩
      | error e => exact ⟨none, by simp [getSpec]⟩
  | true =>
      cases hcc : lookupA st.specCache url with
      | some cached => exact ⟨some cached, by simp [getSpec, hcc]⟩
      | none =>
          obtain ⟨⟨v, st1⟩, hp⟩ := fetchAndCacheSpec_ok st url auth now fetch
          exact ⟨v, by simp [getSpec, hcc, hp]⟩

/-- Claim C6: when the generation stream raises after zero or more responses, the
caller's stream is the chunks emitted so far followed by exactly one error
chunk, and then the stream closes; the error chunk is the only error chunk
in the output and it is terminal. -/
theorem chat_stream_error_terminal_chunk (o : TurnOracle) (sid : String) (store : Store)
    (e : String) (hk : o.kernelResult = .ok ()) (hl : ∃ ex, o.loadResult = .ok ex)
    (hA : o.agentType = "AzureAIAgent" ∨ o.agentType = "ChatCompletionAgent")
    (hc : o.agentCreateResult = .ok ()) (hs : o.streamError = some e) :
    (chatTurn o sid store).chunks = emitStream o.streamEvents ++ [.errDict (errMsg e)]
    ∧ (chatTurn o sid store).chunks.filter isErrChunk = [.errDict (errMsg e)] := by
  obtain ⟨ex, hl⟩ := hl
  have hA2 : (o.agentType == "AzureAIAgent" || o.agentType == "ChatCompletionAgent") = true := by
    rcases hA with h | h <;> simp [h]
  have hch : (chatTurn o sid store).chunks = emitStream o.streamEvents ++ [.errDict (errMsg e)] := by
    simp [chatTurn, hk, hl, hA2, hc, hs]
  refine ⟨hch, ?_⟩
  rw [hch, List.filter_append, emitStream_filter_err]
  simp [isErrChunk]

theorem chat_stream_error_terminal_chunk_witness :
    wTurnStreamErr.kernelResult = .ok ()
    ∧ wTurnStreamErr.streamError = some "boom"
    ∧ (chatTurn wTurnStreamErr "s1" wStore).chunks
        = emitStream wTurnStreamErr.streamEvents ++ [.errDict (errMsg "boom")]
    ∧ (chatTurn wTurnStreamErr "s1" wStore).chunks.filter isErrChunk
        = [.errDict (errMsg "boom")] := by
  have h := chat_stream_error_terminal_chunk wTurnStreamErr "s1" wStore "boom"
    rfl ⟨none, rfl⟩ (Or.inr rfl) rfl rfl
  exact ⟨rfl, rfl, h.1, h.2⟩

/-- Claim C7: evaluation at the failing configuration. The Redis backend exposes
no delete operation at all (RedisThreadStorage implements only save and
load, though the ThreadStorage base class declares delete abstract), while
the in-memory backend satisfies the claimed save/load/delete round-trip,
and Redis save/load round-trips an opaque handle and keeps only the most
recently saved external id. -/
theorem redis_delete_missing_eval :
    (redisOps 86400).deleteOp = none
    ∧ inMemoryLoad false (inMemorySave false [] "s1" (.chatHistory "h1")) "s1"
        = some (.inl (.chatHistory "h1"))
    ∧ inMemoryLoad false (inMemoryDelete (inMemorySave false [] "s1" (.chatHistory "h1")) "s1") "s1"
        = none
    ∧ redisLoad (redisSave 86400 [] "s1" (.azureAI (some "t-1"))) "s1"
        = some (.inl (.serHandle "AzureAIAgentThread" "t-1" []))
    ∧ redisLoad
        (redisSave 86400 (redisSave 86400 [] "s1" (.azureAI (some "t-1"))) "s1"
          (.azureAI (some "t-2"))) "s1"
        = some (.inl (.serHandle "AzureAIAgentThread" "t-2" [])) := by
  exact ⟨rfl, rfl, rfl, rfl, rfl⟩

/-- Claim C8: evaluation at the failing input. A persisted AzureAI thread is
saved as a SerializableThread handle carrying the external id, but on the
next turn the orchestrator's isinstance-based thread selection rejects
that handle and returns None (a fresh thread), never reconnecting to the
recorded id; only a live AzureAIAgentThread instance would be reused. -/
theorem serializable_handle_discarded_eval :
    inMemoryLoad false (inMemorySave false [] "s9" (.azureAI (some "thread_123"))) "s9"
        = some (.inl (.serHandle "AzureAIAgentThread" "thread_123" []))
    ∧ selectThread "AzureAIAgent"
        (inMemoryLoad false (inMemorySave false [] "s9" (.azureAI (some "thread_123"))) "s9")
        = none
    ∧ selectThread "AzureAIAgent" (some (.inl (.azureAI (some "thread_123"))))
        = some (.azureAI (some "thread_123")) := by
  exact ⟨rfl, rfl, rfl⟩

/-- Claim C9 counterexample: for a concrete invocation carrying an argument named
api_key, the recorded function_start event has neither a plugin entry nor
an arguments entry, so it does not have the sanitized shape the claim
asserts. -/
theorem function_start_event_lacks_sanitized_args :
    lookupA (startEventOf wCtx9 0) "plugin" = none
    ∧ lookupA (startEventOf wCtx9 0) "arguments" = none
    ∧ isSensitiveName "api_key" = true
    ∧ ¬ claimedStartShape (startEventOf wCtx9 0) "WeatherPlugin" wCtx9 := by
  refine ⟨rfl, rfl, by decide, ?_⟩
  intro h
  have hp := h.2.1
  simp [startEventOf, lookupA] at hp

/-- Claim C9 amended: the recorded FunctionStart event contains exactly the event
type, the function name and the start timestamp; the owning plugin name
and the invocation's arguments are not recorded at all, so no argument
value — sensitive or not — ever appears in the event, which is independent
of the arguments. -/
theorem function_start_event_shape (ctx : InvocationContext) (t : ℚ)
    (args2 : List (String × String)) :
    lookupA (startEventOf ctx t) "function" = some (.s ctx.functionName)
    ∧ lookupA (startEventOf ctx t) "timestamp" = some (.num t)
    ∧ lookupA (startEventOf ctx t) "plugin" = none
    ∧ lookupA (startEventOf ctx t) "arguments" = none
    ∧ startEventOf { functionName := ctx.functionName, arguments := args2 } t
        = startEventOf ctx t
    ∧ (startEventOf ctx t).map (fun kv => kv.2)
        = [.s "function_start", .s ctx.functionName, .num t] := by
  refine ⟨rfl, rfl, rfl, rfl, rfl, rfl⟩

/-- Claim C10: MCP initialize connects only the first entry of mcpServers in
mapping order — the result is the same whatever the remaining entries are,
and the single connect attempt is for the first entry's name when its
command is truthy — and returns False when mcpServers is absent, empty,
not a mapping, the chosen entry has no usable command, or the config
string is invalid JSON. -/
theorem mcp_first_server_only (name : String) (sc : ServerConfig)
    (rest : List (String × ServerConfig)) (k : Bool) (b : Bool) :
    mcpInit (.objConf { mcpServers := some (.dict ((name, sc) :: rest)) }) k
        = mcpInit (.objConf { mcpServers := some (.dict [(name, sc)]) }) k
    ∧ mcpInit (.objConf { mcpServers := some (.dict ((name, sc) :: rest)) }) k
        = (if commandTruthy sc.command then (k, [name]) else (false, []))
    ∧ mcpInit (.objConf { mcpServers := none }) k = (false, [])
    ∧ mcpInit (.objConf { mcpServers := some (.dict []) }) k = (false, [])
    ∧ mcpInit (.objConf { mcpServers := some (.nonDict b) }) k = (false, [])
    ∧ mcpInit (.strConf none) k = (false, []) := by
  refine ⟨rfl, rfl, rfl, rfl, rfl, rfl⟩

end AgentExperience
